import Mathlib

/-!
Shallow embedding of `src/main.py` of the pycli-test repository: an example
CLI application built on the pycli library.  Python values that flow through
the environment store, the per-command options map and the rendering pipeline
are modelled by the inductive `PyVal`; fallible Python code (code that can
raise) is modelled with `Except PyError`; printing is modelled by returning
the list of printed lines.
-/

/-- Dynamically typed Python values, as used by this program: `None`,
booleans, ints, strings and (string-keyed) dicts. -/
inductive PyVal where
  | none
  | bool (b : Bool)
  | int (n : Int)
  | str (s : String)
  | dict (entries : List (String × PyVal))

/-- The Python test `v is None`. -/
def PyVal.isNone : PyVal → Bool
  | PyVal.none => true
  | _ => false

/-- Python exceptions raised by this program, by class. -/
inductive PyError where
  | fileNotFound (msg : String)
  | valueError (msg : String)
  | typeError (msg : String)
  | unknownCommand (msg : String)
deriving DecidableEq

mutual

/-- Python `repr` on `PyVal`, used when a dict is converted to text. -/
def pyRepr : PyVal → String
  | PyVal.none => "None"
  | PyVal.bool true => "True"
  | PyVal.bool false => "False"
  | PyVal.int n => toString n
  | PyVal.str s => "'" ++ s ++ "'"
  | PyVal.dict l => "\x7b" ++ pyReprEntries l ++ "\x7d"

/-- Comma-separated `'key': repr(value)` rendering of dict entries. -/
def pyReprEntries : List (String × PyVal) → String
  | [] => ""
  | [(k, v)] => "'" ++ k ++ "': " ++ pyRepr v
  | (k, v) :: rest => "'" ++ k ++ "': " ++ pyRepr v ++ ", " ++ pyReprEntries rest

end

/-- Python `str` on `PyVal`, as applied by an f-string interpolation. -/
def pyStr : PyVal → String
  | PyVal.none => "None"
  | PyVal.bool true => "True"
  | PyVal.bool false => "False"
  | PyVal.int n => toString n
  | PyVal.str s => s
  | PyVal.dict l => "\x7b" ++ pyReprEntries l ++ "\x7d"

/-- Python truthiness of a `PyVal` (`bool(v)`). -/
def truthy : PyVal → Bool
  | PyVal.none => false
  | PyVal.bool b => b
  | PyVal.int n => n != 0
  | PyVal.str s => s != ""
  | PyVal.dict l => !l.isEmpty

/-- A Python dict observed through key lookup: `m k = Option.none` models
`k not in m`, `m k = some v` models `m[k] = v`.  Used for `cli.env_vars`
and for each command's `options` mapping. -/
def StrDict : Type := String → Option PyVal

/-- Dict item assignment `m[k] = v`. -/
def setKey (m : StrDict) (k : String) (v : PyVal) : StrDict :=
  fun k2 => if k2 = k then some v else m k2

/-- Dict item removal `m.pop(k, None)` (observing only the resulting dict). -/
def delKey (m : StrDict) (k : String) : StrDict :=
  fun k2 => if k2 = k then Option.none else m k2

/-- The empty dict. -/
def emptyDict : StrDict := fun _ => Option.none

/-- Presence combined with truthiness, `key in m and m[key]`: the test
`return_value_handler` performs on the ignore-value option. -/
def truthyOpt : Option PyVal → Bool
  | some v => truthy v
  | Option.none => false

/-- A pycli `Command` as this program observes it: `matches` is the list of
aliases (`matches[0]` is the canonical display name, nonempty for every
registered command), `options` the display-options dict, `detail` the
pycli-provided description line and `doc` the handler docstring. -/
structure Command where
  «matches» : List String
  options : StrDict
  detail : String
  doc : Option String

/-- From `src/main.py` lines 265-283, `return_value_handler(command, value)`:
suppress output when the ignore-value option is present and truthy;
otherwise print one line `title ++ delimiter ++ "Done!"` for a `None` value
and `title ++ delimiter ++ str(value)` otherwise, with `title` defaulting to
`command.matches[0]` and `delimiter` defaulting to `"->"`.  The result is
the list of printed lines.  (`matches[0]` is modelled with `headD ""`;
every registered command has at least one alias.) -/
def return_value_handler (command : Command) (value : PyVal) : List String :=
  if truthyOpt (command.options "ignore-value") then []
  else
    let title : PyVal :=
      match command.options "title" with
      | some t => t
      | Option.none => PyVal.str (command.«matches».headD "")
    let delimiter : PyVal :=
      match command.options "delimiter" with
      | some d => d
      | Option.none => PyVal.str "->"
    if value.isNone then
      [pyStr title ++ pyStr delimiter ++ "Done!"]
    else
      [pyStr title ++ pyStr delimiter ++ pyStr value]

/-- Python `str.lower()`, character by character (the tokens involved are
ASCII). -/
def pyLower (s : String) : String := String.mk (s.data.map Char.toLower)

/-- The falsy tokens of `parse_bool` (`src/main.py` line 22). -/
def falsyTokens : List String := ["no", "false", "negative", "deny"]

/-- The truthy tokens of `parse_bool` (`src/main.py` line 23). -/
def truthyTokens : List String := ["yes", "true", "positive", "allow"]

/-- From `src/main.py` lines 15-29, `parse_bool(entry)`: lower-case the token,
return `False` for a falsy token, `True` for a truthy token, and raise
`ValueError` otherwise. -/
def parse_bool (entry : String) : Except PyError Bool :=
  let e := pyLower entry
  if e ∈ falsyTokens then Except.ok false
  else if e ∈ truthyTokens then Except.ok true
  else Except.error (PyError.valueError "Parsing bool must be falsy or truthy")

/-- A Python exception object as `exception_handler` inspects it:
`isCLIError` is the test `issubclass(exception.__class__, CLIError)`,
`msg` is `str(exception)` and `cause` is `str(exception.__cause__)` when a
cause is attached. -/
structure PyException where
  isCLIError : Bool
  msg : String
  cause : Option String

/-- One line of terminal output produced by the error renderer: either a
printed text line or the full diagnostic trace emitted by
`traceback.print_exc()`. -/
inductive OutLine where
  | text (s : String)
  | traceback
deriving DecidableEq

/-- From `src/main.py` lines 251-263, `exception_handler(exception)`: for an
exception in the CLIError taxonomy print one concise line (naming the
invoked command when `cli.invoking()` is not `None`) followed by the chained
cause when present; for any other exception print a generic warning and the
full diagnostic trace.  The first argument models `cli.invoking()`. -/
def exception_handler (invoking : Option Command) (e : PyException) : List OutLine :=
  if e.isCLIError then
    (match invoking with
      | Option.none => [OutLine.text ("! An error occured: " ++ e.msg)]
      | some c =>
          [OutLine.text ("! An error occured running command "
            ++ c.«matches».headD "" ++ ": " ++ e.msg)])
    ++ (match e.cause with
      | some cause => [OutLine.text ("! Cause: " ++ cause)]
      | Option.none => [])
  else
    [OutLine.text ("Unkown exception was raised: " ++ e.msg), OutLine.traceback]

/-- Modelled from the spec: `cli.match_command` belongs to the pycli library,
whose sources are not in this repository.  Spec section 4.1: resolution
checks the token against each registered command alias, case-insensitively
when the session is configured that way (this application sets
`ignore_case=True`), and fails with `UnknownCommandError` naming the
unresolved token when no alias matches; ties are impossible, so the first
match is the command. -/
def match_command (commands : List Command) (name : String) : Except PyError Command :=
  match commands.find? (fun c => c.«matches».any (fun a => pyLower a == pyLower name)) with
  | some c => Except.ok c
  | Option.none => Except.error (PyError.unknownCommand name)

/-- The per-command description text appended for one command inside the
help-for-all loop of `uhelp` (`src/main.py` lines 65-70): a tab, the
command detail, the docstring part when `full` is set, and a newline after
every command but the last. -/
def uhelpLine (lastIdx : Nat) (full : Bool) (p : Nat × Command) : String :=
  "\t" ++ p.2.detail
    ++ (if full then " | " ++ p.2.doc.getD "" else "")
    ++ (if p.1 ≠ lastIdx then "\n" else "")

/-- From `src/main.py` lines 52-79, `uhelp(command_name, full)`: the handler of
the `help` command.  `commands` models `cli.commands()` and `help_options`
the options dict of the help command itself (`cmd(cli, uhelp)` retrieves
it).  With no command name it sets its own title to `"Help"` and delimiter
to a newline, then returns the joined description of every command; with a
command name it first resolves the command (raising on an unknown name,
leaving the options untouched), then sets title `"Help for"` and delimiter
`" "` and returns that command's description.  The result pairs the
updated options dict with the returned string. -/
def uhelp (commands : List Command) (help_options : StrDict)
    (command_name : Option String) (full : Bool) :
    Except PyError (StrDict × String) :=
  match command_name with
  | Option.none =>
      let help_options := setKey help_options "title" (PyVal.str "Help")
      let help_options := setKey help_options "delimiter" (PyVal.str "\n")
      let lastIdx := commands.length - 1
      let desc := ((commands.enum).map (uhelpLine lastIdx full)).foldl (· ++ ·) ""
      Except.ok (help_options, desc)
  | some name =>
      match match_command commands name with
      | Except.error e => Except.error e
      | Except.ok command =>
          let help_options := setKey help_options "title" (PyVal.str "Help for")
          let help_options := setKey help_options "delimiter" (PyVal.str " ")
          Except.ok (help_options,
            command.detail ++ (if full then " | " ++ command.doc.getD "" else ""))

/-- The mutable session state the demo handlers touch: the environment
store `cli.env_vars` and the window title `cli.title`. -/
structure CLIState where
  env_vars : StrDict
  title : String

/-- The initial environment store passed to the `CLI` constructor
(`src/main.py` lines 34-39): username `None`, age `None`, an empty
user-items dict, and tabwidth 4 (`DEFAULT_TABWIDTH`). -/
def initial_env_vars : StrDict :=
  setKey (setKey (setKey (setKey emptyDict
    "username" PyVal.none)
    "age" PyVal.none)
    "user-items" (PyVal.dict []))
    "tabwidth" (PyVal.int 4)

/-- From `src/main.py` lines 93-102, `setname(name)`: store the name under
`username`, retitle the session (truthiness of `name` decides which title),
and return the name. -/
def setname (cli : CLIState) (name : String) : CLIState × PyVal :=
  let cli1 : CLIState := { cli with env_vars := setKey cli.env_vars "username" (PyVal.str name) }
  let cli2 : CLIState :=
    if name ≠ "" then { cli1 with title := name ++ "@CLI App" }
    else { cli1 with title := "CLI App" }
  (cli2, PyVal.str name)

/-- From `src/main.py` lines 129-137, `getname()`: empty string when `username`
is missing or `None`, else the stored value. -/
def getname (cli : CLIState) : PyVal :=
  match cli.env_vars "username" with
  | Option.none => PyVal.str ""
  | some PyVal.none => PyVal.str ""
  | some v => v

/-- From `src/main.py` lines 139-147, `getage()`: the empty string (despite the
declared `int` return type) when `age` is missing or `None`, else the
stored value. -/
def getage (cli : CLIState) : PyVal :=
  match cli.env_vars "age" with
  | Option.none => PyVal.str ""
  | some PyVal.none => PyVal.str ""
  | some v => v

/-- From `src/main.py` lines 121-127, `settabwidth(width)`: an error string for
`width <= 0`; otherwise store the hardcoded 4 under `tabwidth` — not
`width` — and fall off the end of the function, returning `None`. -/
def settabwidth (env : StrDict) (width : Int) : StrDict × PyVal :=
  if width ≤ 0 then (env, PyVal.str "Error, tabwidth must be greater than 0")
  else (setKey env "tabwidth" (PyVal.int 4), PyVal.none)

/-- The loop `for key, value in cli.env_vars['user-items']` of `getitem`
(`src/main.py` lines 158-159): iterating a Python dict yields its keys, so
each iteration unpacks one key — a string — into two names, which succeeds
exactly when the key has length 2 (yielding its two characters) and raises
`ValueError` otherwise.  `message` accumulates the f-string appends. -/
def getitemLoop : List (String × PyVal) → String → Except PyError String
  | [], message => Except.ok message
  | (k, _) :: rest, message =>
      if k.length = 2 then
        getitemLoop rest (message ++ "\t" ++ k.take 1 ++ ":" ++ k.drop 1)
      else
        Except.error (PyError.valueError ("values to unpack: " ++ k))

/-- From `src/main.py` lines 149-165, `getitem(key)`: empty string when
`user-items` is absent; with no key, iterate `user-items` itself starting
from a bare newline (see `getitemLoop` — the loop unpacks dict keys, not
key-value pairs); with a key, report a missing key or return the stored
value looked up at the top level of `env_vars`.  Iterating a non-dict
`user-items` value raises `TypeError` (in this program the entry always
holds a dict). -/
def getitem (env : StrDict) (key : Option String) : Except PyError PyVal :=
  if (env "user-items").isNone then Except.ok (PyVal.str "")
  else
    match key with
    | Option.none =>
        match env "user-items" with
        | some (PyVal.dict entries) => (getitemLoop entries "\n").map PyVal.str
        | _ => Except.error (PyError.typeError "cannot unpack non-iterable value")
    | some k =>
        if (env k).isNone then Except.ok (PyVal.str ("Key " ++ k ++ " does not exist"))
        else Except.ok ((env k).getD PyVal.none)

/-- Computation `math.ceil(math.log10 n)` performed at `src/main.py` line 196:
`math.log10` raises `ValueError` (math domain error) on 0; on a positive
count it is the exact ceiling of the base-10 logarithm, `Nat.clog 10 n`. -/
def ceil_log10 (n : Nat) : Except PyError Nat :=
  if n = 0 then Except.error (PyError.valueError "math domain error")
  else Except.ok (Nat.clog 10 n)

/-- Model of `os.path.basename`: the part of the path after the last separator. -/
def basename (p : String) : String :=
  ((p.splitOn "/").getLastD "")

/-- Model of `format(idx, f"0<d>")`: decimal rendering of `idx` left-padded with
zeros to width `d`. -/
def zfill (idx d : Nat) : String :=
  let s := toString idx
  String.mk (List.replicate (d - s.length) '0') ++ s

/-- The prefix produced by the inner `line_number(idx)` of `printfile`
(`src/main.py` lines 198-201): empty when line numbers are off, else the
zero-padded index and a bar. -/
def line_number (line_no : Bool) (max_digit_count idx : Nat) : String :=
  if line_no then zfill idx max_digit_count ++ "|" else ""

/-- From `src/main.py` lines 176-208, `printfile(path, line_no, ...)`: pop any
title option, raise `FileNotFoundError` for a path that is not an existing
file, set the title option to the file basename, read the lines, compute
the line-number width `math.ceil(math.log10(len(lines)))` — which raises on
an empty file — and return the concatenation of the (optionally numbered)
lines.  `fs` models the file system: `fs path` is `some lines` when `path`
is an existing file whose `readlines()` gives `lines`, and `Option.none`
otherwise.  The text encoding is I/O detail outside the embedding.  The
result pairs the updated options dict of the printfile command with the
returned string. -/
def printfile (fs : String → Option (List String)) (opts : StrDict)
    (path : String) (line_no : Bool) : Except PyError (StrDict × String) :=
  let opts1 := delKey opts "title"
  match fs path with
  | Option.none => Except.error (PyError.fileNotFound ("File " ++ path ++ " does not exist"))
  | some lines =>
      let opts2 := setKey opts1 "title" (PyVal.str (basename path))
      match ceil_log10 lines.length with
      | Except.error e => Except.error e
      | Except.ok max_digit_count =>
          Except.ok (opts2,
            ((lines.enum).map
              (fun p => line_number line_no max_digit_count p.1 ++ p.2)).foldl (· ++ ·) "")

/-- A registered command without any display options, for concrete
instantiations. -/
def demoCommand : Command :=
  { «matches» := ["demo"], options := emptyDict, detail := "demo", doc := Option.none }

/-- The quit command of `src/main.py` lines 87-91: three aliases and the
ignore-value option set true. -/
def quitCommand : Command :=
  { «matches» := ["quit", "exit", "q"],
    options := setKey emptyDict "ignore-value" (PyVal.bool true),
    detail := "quit", doc := some " Exit the program" }

/-- Claim C1: with the ignore-value option not set true, the value renderer
prints one line `title ++ delimiter ++ "Done!"` for an absent (None) return
value and `title ++ delimiter ++ str(value)` otherwise, where `title`
defaults to the first (canonical) alias and `delimiter` defaults to the
fixed separator `"->"`, each overridable through the options map. -/
theorem return_value_handler_renders (c : Command) (v : PyVal)
    (a : String) (rest : List String)
    (hm : c.«matches» = a :: rest)
    (hig : truthyOpt (c.options "ignore-value") = false) :
    return_value_handler c v =
      [ (match c.options "title" with
          | some t => pyStr t
          | Option.none => a)
        ++ (match c.options "delimiter" with
          | some d => pyStr d
          | Option.none => "->")
        ++ (if v.isNone then "Done!" else pyStr v) ] := by
  unfold return_value_handler
  rw [hig]
  cases hT : c.options "title" <;> cases hD : c.options "delimiter" <;>
    cases hv : v.isNone <;>
      simp [hm, hT, hD, hv, pyStr]

/-- Concrete instantiation of `return_value_handler_renders`: the demo
command, which has no options, returning the string `"x"` renders as
`demo->x`. -/
theorem return_value_handler_renders_witness :
    demoCommand.«matches» = "demo" :: [] ∧
    truthyOpt (demoCommand.options "ignore-value") = false ∧
    return_value_handler demoCommand (PyVal.str "x") = ["demo->x"] :=
  ⟨rfl, rfl,
    (return_value_handler_renders demoCommand (PyVal.str "x") "demo" [] rfl rfl).trans rfl⟩

/-- Claim C2: with the ignore-value option set true, the value renderer
produces no output, whatever the returned value is. -/
theorem ignore_value_suppresses_output (c : Command) (v : PyVal)
    (h : c.options "ignore-value" = some (PyVal.bool true)) :
    return_value_handler c v = [] := by
  simp [return_value_handler, h, truthyOpt, truthy]

/-- Concrete instantiation of `ignore_value_suppresses_output`: the quit
command renders nothing for its `None` return value. -/
theorem ignore_value_suppresses_output_witness :
    quitCommand.options "ignore-value" = some (PyVal.bool true) ∧
    return_value_handler quitCommand PyVal.none = [] :=
  ⟨rfl, ignore_value_suppresses_output quitCommand PyVal.none rfl⟩

/-- Claim C3: `parse_bool` returns true exactly for tokens whose lower-cased
form is a truthy token, false exactly for tokens whose lower-cased form is a
falsy token, and raises exactly for every other token. -/
theorem parse_bool_classifies (s : String) :
    (parse_bool s = Except.ok true ↔ pyLower s ∈ truthyTokens) ∧
    (parse_bool s = Except.ok false ↔ pyLower s ∈ falsyTokens) ∧
    ((parse_bool s).isOk = false ↔
      (pyLower s ∉ truthyTokens ∧ pyLower s ∉ falsyTokens)) := by
  unfold parse_bool
  by_cases hf : pyLower s ∈ falsyTokens <;> by_cases ht : pyLower s ∈ truthyTokens
  · exfalso
    simp [falsyTokens] at hf
    rcases hf with h | h | h | h <;> rw [h] at ht <;> simp [truthyTokens] at ht
  · simp [hf, ht, Except.isOk, Except.toBool]
  · simp [hf, ht, Except.isOk, Except.toBool]
  · simp [hf, ht, Except.isOk, Except.toBool]

/-- Concrete instantiation of `parse_bool_classifies`: the token `"Allow"`
case-folds to a truthy token and parses as true, while `"maybe"` parses as
a raised failure. -/
theorem parse_bool_classifies_witness :
    parse_bool "Allow" = Except.ok true ∧ (parse_bool "maybe").isOk = false :=
  ⟨(parse_bool_classifies "Allow").1.mpr (by decide),
    (parse_bool_classifies "maybe").2.2.mpr (by decide)⟩

/-- Claim C4: the error renderer prints the concise one-line message (plus
the chained cause when attached) and no diagnostic trace exactly on
CLI-taxonomy errors, and the generic warning followed by the full
diagnostic trace exactly on every other exception. -/
theorem exception_handler_distinguishes (inv : Option Command) (e : PyException) :
    (e.isCLIError = true →
      exception_handler inv e =
        [OutLine.text
          (match inv with
            | Option.none => "! An error occured: " ++ e.msg
            | some c => "! An error occured running command "
                ++ c.«matches».headD "" ++ ": " ++ e.msg)]
        ++ (match e.cause with
            | some cause => [OutLine.text ("! Cause: " ++ cause)]
            | Option.none => []) ∧
      OutLine.traceback ∉ exception_handler inv e) ∧
    (e.isCLIError = false →
      exception_handler inv e =
        [OutLine.text ("Unkown exception was raised: " ++ e.msg), OutLine.traceback]) := by
  unfold exception_handler
  constructor
  · intro h
    rw [h]
    constructor
    · cases inv <;> simp
    · cases inv <;> rcases e.cause with _ | c <;> simp
  · intro h
    rw [h]
    simp

/-- Concrete instantiation of `exception_handler_distinguishes`: a CLIError
with a cause prints two concise lines; a non-CLI exception prints the
warning and the trace. -/
theorem exception_handler_distinguishes_witness :
    exception_handler Option.none { isCLIError := true, msg := "boom", cause := some "root" } =
      [OutLine.text "! An error occured: boom", OutLine.text "! Cause: root"] ∧
    exception_handler Option.none { isCLIError := false, msg := "oops", cause := Option.none } =
      [OutLine.text "Unkown exception was raised: oops", OutLine.traceback] :=
  ⟨((exception_handler_distinguishes Option.none
      { isCLIError := true, msg := "boom", cause := some "root" }).1 rfl).1.trans rfl,
    (exception_handler_distinguishes Option.none
      { isCLIError := false, msg := "oops", cause := Option.none }).2 rfl⟩

/-- Claim C5: whenever `uhelp` returns, the options dict of the help command
carries title `"Help"` and delimiter `"\n"` when no command name was given,
and title `"Help for"` and delimiter `" "` when one was given. -/
theorem uhelp_sets_own_options (commands : List Command) (opts : StrDict)
    (full : Bool) (name : Option String) (res : StrDict × String)
    (h : uhelp commands opts name full = Except.ok res) :
    (name = Option.none →
      res.1 "title" = some (PyVal.str "Help") ∧
      res.1 "delimiter" = some (PyVal.str "\n")) ∧
    (∀ n, name = some n →
      res.1 "title" = some (PyVal.str "Help for") ∧
      res.1 "delimiter" = some (PyVal.str " ")) := by
  constructor
  · rintro rfl
    simp only [uhelp] at h
    injection h with h
    rw [← h]
    simp [setKey]
  · rintro n rfl
    simp only [uhelp] at h
    cases hm : match_command commands n with
    | error e => rw [hm] at h; cases h
    | ok command =>
        rw [hm] at h
        injection h with h
        rw [← h]
        simp [setKey]

/-- The options dict `uhelp` produces in its named-command branch when it
starts from an empty options dict. -/
def uhelpDemoOptions : StrDict :=
  setKey (setKey emptyDict "title" (PyVal.str "Help for")) "delimiter" (PyVal.str " ")

/-- Concrete instantiation of `uhelp_sets_own_options`: asking for help on
the demo command leaves title `"Help for"` and delimiter `" "` in the help
command's own options. -/
theorem uhelp_sets_own_options_witness :
    uhelpDemoOptions "title" = some (PyVal.str "Help for") ∧
    uhelpDemoOptions "delimiter" = some (PyVal.str " ") :=
  (uhelp_sets_own_options [demoCommand] emptyDict false (some "demo")
      (uhelpDemoOptions, "demo") (by rfl)).2 "demo" rfl

/-- Claim C6: for a positive width `settabwidth` stores the hardcoded 4
under `tabwidth` — the same result for every positive width, so the
argument is ignored — and returns `None`; for a non-positive width it
returns the error string and leaves the store untouched. -/
theorem settabwidth_ignores_width (env : StrDict) (width : Int) :
    (0 < width →
      (settabwidth env width).1 "tabwidth" = some (PyVal.int 4) ∧
      (settabwidth env width).2 = PyVal.none ∧
      ∀ w2 : Int, 0 < w2 → settabwidth env width = settabwidth env w2) ∧
    (width ≤ 0 →
      (settabwidth env width).2 = PyVal.str "Error, tabwidth must be greater than 0" ∧
      (settabwidth env width).1 = env) := by
  constructor
  · intro h
    have hn : ¬ width ≤ 0 := not_le.mpr h
    refine ⟨by simp [settabwidth, hn, setKey], by simp [settabwidth, hn], ?_⟩
    intro w2 hw2
    simp [settabwidth, hn, not_le.mpr hw2]
  · intro h
    exact ⟨by simp [settabwidth, h], by simp [settabwidth, h]⟩

/-- Concrete instantiation of `settabwidth_ignores_width`: width 7 stores 4
and returns `None`; width 0 returns the error string. -/
theorem settabwidth_ignores_width_witness :
    (settabwidth initial_env_vars 7).1 "tabwidth" = some (PyVal.int 4) ∧
    (settabwidth initial_env_vars 7).2 = PyVal.none ∧
    (settabwidth initial_env_vars 0).2 = PyVal.str "Error, tabwidth must be greater than 0" :=
  ⟨((settabwidth_ignores_width initial_env_vars 7).1 (by norm_num)).1,
    ((settabwidth_ignores_width initial_env_vars 7).1 (by norm_num)).2.1,
    ((settabwidth_ignores_width initial_env_vars 0).2 (by norm_num)).1⟩

/-- Any key whose length is not 2 makes the `getitem` list-all loop raise
`ValueError`, whatever the accumulated message is. -/
theorem getitemLoop_err : ∀ (entries : List (String × PyVal)) (k : String),
    k ∈ entries.map Prod.fst → k.length ≠ 2 →
    ∀ msg, ∃ m, getitemLoop entries msg = Except.error (PyError.valueError m)
  | [], k, hk, _, _ => by simp at hk
  | (k1, v1) :: rest, k, hk, hlen, msg => by
      by_cases h1 : k1.length = 2
      · have hk2 : k ∈ rest.map Prod.fst := by
          rcases (by simpa using hk : k = k1 ∨ k ∈ rest.map Prod.fst) with h | h
          · exact absurd h1 (h ▸ hlen)
          · exact h
        obtain ⟨m, hm⟩ := getitemLoop_err rest k hk2 hlen
          (msg ++ "\t" ++ k1.take 1 ++ ":" ++ k1.drop 1)
        exact ⟨m, by simp [getitemLoop, h1, hm]⟩
      · exact ⟨"values to unpack: " ++ k1, by simp [getitemLoop, h1]⟩

/-- Claim C7: the list-all branch of `getitem` iterates the user-items
mapping itself — its keys.  On an empty mapping it returns the bare
newline; on any mapping containing a key that does not unpack into exactly
two elements it raises `ValueError` instead of listing the stored values. -/
theorem getitem_list_all_iterates_keys (env : StrDict) :
    (env "user-items" = some (PyVal.dict []) →
      getitem env Option.none = Except.ok (PyVal.str "\n")) ∧
    (∀ entries k, env "user-items" = some (PyVal.dict entries) →
      k ∈ entries.map Prod.fst → k.length ≠ 2 →
      ∃ m, getitem env Option.none = Except.error (PyError.valueError m)) := by
  constructor
  · intro h
    simp [getitem, h, getitemLoop, Except.map]
  · intro entries k h hk hlen
    obtain ⟨m, hm⟩ := getitemLoop_err entries k hk hlen "\n"
    exact ⟨m, by simp [getitem, h, hm, Except.map]⟩

/-- Concrete instantiation of `getitem_list_all_iterates_keys`: the initial
empty user-items dict lists as a bare newline; a stored key `"abc"` (three
characters) makes the listing raise. -/
theorem getitem_list_all_iterates_keys_witness :
    getitem (setKey emptyDict "user-items" (PyVal.dict [])) Option.none =
      Except.ok (PyVal.str "\n") ∧
    (getitem (setKey emptyDict "user-items" (PyVal.dict [("abc", PyVal.none)]))
      Option.none).isOk = false := by
  constructor
  · exact (getitem_list_all_iterates_keys
      (setKey emptyDict "user-items" (PyVal.dict []))).1 rfl
  · obtain ⟨m, hm⟩ := (getitem_list_all_iterates_keys
      (setKey emptyDict "user-items" (PyVal.dict [("abc", PyVal.none)]))).2
      [("abc", PyVal.none)] "abc" rfl (by simp) (by decide)
    rw [hm]
    rfl

/-- Claim C8: `printfile` signals failure by raising — `FileNotFoundError`
with a descriptive message on a path that is not an existing file, and the
math-domain `ValueError` from the digit-count computation on an existing
but empty file — never by returning a value. -/
theorem printfile_raises (fs : String → Option (List String)) (opts : StrDict)
    (path : String) (line_no : Bool) :
    (fs path = Option.none →
      printfile fs opts path line_no =
        Except.error (PyError.fileNotFound ("File " ++ path ++ " does not exist"))) ∧
    (fs path = some [] →
      printfile fs opts path line_no =
        Except.error (PyError.valueError "math domain error")) := by
  constructor
  · intro h
    simp [printfile, h]
  · intro h
    simp [printfile, h, ceil_log10]

/-- A one-file file system for concrete instantiations: `a.txt` exists and
is empty; no other path is a file. -/
def demoFS : String → Option (List String) :=
  fun p => if p = "a.txt" then some [] else Option.none

/-- Concrete instantiation of `printfile_raises`: a missing `b.txt` raises
`FileNotFoundError`; the existing empty `a.txt` raises `ValueError`. -/
theorem printfile_raises_witness :
    printfile demoFS emptyDict "b.txt" false =
      Except.error (PyError.fileNotFound "File b.txt does not exist") ∧
    printfile demoFS emptyDict "a.txt" false =
      Except.error (PyError.valueError "math domain error") :=
  ⟨((printfile_raises demoFS emptyDict "b.txt" false).1 (by simp [demoFS])).trans rfl,
    (printfile_raises demoFS emptyDict "a.txt" false).2 (by simp [demoFS])⟩

/-- Claim C9: `setname` followed by `getname` on the resulting state gives
back the same name, and `setname` also returns its argument unchanged. -/
theorem setname_getname_roundtrip (cli : CLIState) (name : String) :
    getname (setname cli name).1 = PyVal.str name ∧
    (setname cli name).2 = PyVal.str name := by
  constructor
  · unfold setname getname
    by_cases h : name = "" <;> simp [h, setKey]
  · rfl

/-- Test for the `int` constructor of `PyVal` — the declared return type of
`getage` is `int`. -/
def PyVal.isInt : PyVal → Bool
  | PyVal.int _ => true
  | _ => false

/-- Claim C10: with the `age` entry absent or `None`, `getage` returns the
empty string — not a value of its declared `int` return type — and
otherwise it returns the stored value unchanged. -/
theorem getage_defaults_to_empty_string (cli : CLIState) :
    ((cli.env_vars "age" = Option.none ∨ cli.env_vars "age" = some PyVal.none) →
      getage cli = PyVal.str "" ∧ (getage cli).isInt = false) ∧
    (∀ v, cli.env_vars "age" = some v → v ≠ PyVal.none → getage cli = v) := by
  constructor
  · rintro (h | h) <;> simp [getage, h, PyVal.isInt]
  · intro v h hv
    unfold getage
    rw [h]
    cases v with
    | none => exact absurd rfl hv
    | bool b => rfl
    | int n => rfl
    | str s => rfl
    | dict l => rfl

/-- Concrete instantiation of `getage_defaults_to_empty_string`: on the
initial environment store, where `age` holds `None`, `getage` returns the
empty string, which is not an int. -/
theorem getage_defaults_to_empty_string_witness :
    getage { env_vars := initial_env_vars, title := "CLI App" } = PyVal.str "" ∧
    (getage { env_vars := initial_env_vars, title := "CLI App" }).isInt = false :=
  (getage_defaults_to_empty_string { env_vars := initial_env_vars, title := "CLI App" }).1
    (Or.inr rfl)
